import Mathlib

/-!
Verification of the BACnet/IP server simulator (Go) against its
natural-language specification.

The development shallowly embeds the relevant parts of the source:

* `internal/model/objects.go` — the object/property store with its 17-level
  write-priority array, the COV subscription list and the file object;
* `internal/protocol/npdu.go` — the NPDU parser and encoder;
* `internal/protocol/apdu.go` — the APDU parser;
* the server file (BVLC dispatch `processBACnetMessage`, the service
  handlers `handleAtomicReadFile` and Who-Is / `createIAmResponse`, and
  `generateSubscriptionID`).

Go dynamic (interface) values are modelled as `Option V` (with `none` for
the Go `nil` interface), Go maps as functions into `Option`, byte slices as
`List Nat` of byte values, and `uint32` arithmetic as `Nat` arithmetic with
explicit `% 2 ^ 32`. Fallible Go functions returning `error` are modelled
with `Except String`; a Go runtime panic (out-of-range slice) is modelled
with `Option` (`none` = panic).
-/

namespace Bacnet

/-! ## Object model (`internal/model/objects.go`) -/

/-- Property values stored in an object, standing in for the Go dynamic
`interface` values the store holds (distinct Go dynamic types compare
unequal, matching the distinct constructors here). Only the variants the
claims exercise are included. -/
inductive Val where
  | u32 (n : Nat)
  | str (s : String)
  | access (m : Nat)
  | vbool (b : Bool)
deriving DecidableEq, Repr

/-- `ObjectType` constants from `objects.go` (`iota + 1`): AnalogInput = 1,
…, Device = 7, …, File = 12. -/
def ObjectTypeAnalogInput : Nat := 1
def ObjectTypeDevice : Nat := 7
def ObjectTypeFile : Nat := 12

/-- `PropertyIdentifier` constants from `objects.go` (`iota + 1`). -/
def PropertyIdentifierPresentValue : Nat := 4
def PropertyIdentifierLocation : Nat := 11
def PropertyIdentifierFileSize : Nat := 27
def PropertyIdentifierFileAccessMethod : Nat := 28
def PropertyIdentifierFileOpeningTag : Nat := 29
def PropertyIdentifierFileClosingTag : Nat := 30

/-- `COVSubscription` from `objects.go` (time stamps as `Nat` ticks; the
`DeviceID`, `Lifetime` and object-identifier fields are carried verbatim). -/
structure COVSubscription where
  subscriptionID : Nat
  deviceID : Nat
  objectType : Nat
  objectInstance : Nat
  lifetime : Nat
  issueConfirmedCOVNotifications : Bool
  monitoredProperties : List Nat
  timestamp : Nat
  clientAddress : String
deriving DecidableEq, Repr

/-- One call to `NotificationSender.SendCOVNotification` as issued by
`NotifySubscribers` (arguments in source order: client address,
subscription id, object instance, property id, new value). -/
structure Notification (V : Type) where
  clientAddress : String
  subscriptionID : Nat
  objectID : Nat
  propertyID : Nat
  newValue : Option V
deriving DecidableEq, Repr

/-- `BACnetObject`: `Properties` is the default (priority-16) map, and
`PrioritizedProperties` maps a property to its priority-slot map. A Go map
is a function into `Option`; a stored Go interface value is `Option V`
(`none` = stored `nil`). -/
structure BACnetObject (V : Type) where
  identifierType : Nat
  identifierInstance : Nat
  name : String
  properties : Nat → Option (Option V)
  prioritized : Nat → Option (Nat → Option (Option V))
  subscriptions : List COVSubscription

/-- `NewBACnetObject`: empty maps, empty subscription list. -/
def NewBACnetObject (V : Type) (objType objInstance : Nat) (name : String) :
    BACnetObject V :=
  { identifierType := objType
    identifierInstance := objInstance
    name := name
    properties := fun _ => none
    prioritized := fun _ => none
    subscriptions := [] }

/-- The loop `for priority := 0; priority < 16; priority++` of
`ReadProperty`: starting at slot `i` with `fuel` iterations left, return the
first slot that is present and non-nil. -/
def scanAux {V : Type} (m : Nat → Option (Option V)) : Nat → Nat → Option V
  | 0, _ => none
  | fuel + 1, i =>
    match (m i).bind id with
    | some v => some v
    | none => scanAux m fuel (i + 1)

/-- `ReadProperty` from `objects.go`: scan priority slots 0–15 for a present
non-nil value; otherwise fall back to the plain `Properties` map (`none` if
the key is absent or the stored value is nil). -/
def ReadProperty {V : Type} (o : BACnetObject V) (prop : Nat) : Option V :=
  match o.prioritized prop with
  | some priProps =>
    match scanAux priProps 16 0 with
    | some v => some v
    | none => (o.properties prop).bind id
  | none => (o.properties prop).bind id

/-- `NotifySubscribers` from `objects.go`. For each subscription whose
monitored-property list is empty or contains the written property, and whose
client address is non-empty, the subscription timestamp is set to the
current time and `SendCOVNotification` is invoked (when a
`NotificationSender` is attached; the returned list records those calls —
the matching and timestamp logic is independent of the sender being set). -/
def NotifySubscribers {V : Type} [DecidableEq V] (o : BACnetObject V)
    (propertyIdentifier : Nat) (newValue : Option V) (now : Nat) :
    BACnetObject V × List (Notification V) :=
  let hits := o.subscriptions.map (fun sub =>
    let monitorThisProperty :=
      sub.monitoredProperties.isEmpty ||
        sub.monitoredProperties.contains propertyIdentifier
    if monitorThisProperty && sub.clientAddress ≠ "" then
      ({ sub with timestamp := now },
       some { clientAddress := sub.clientAddress
              subscriptionID := sub.subscriptionID
              objectID := o.identifierInstance
              propertyID := propertyIdentifier
              newValue := newValue })
    else (sub, none))
  ({ o with subscriptions := hits.map Prod.fst },
   hits.filterMap Prod.snd)

/-- `WritePropertyWithPriority` from `objects.go`. Priority 16 stores into
the plain map and deletes the whole priority-slot map for the property;
priorities 0–15 update one slot (the `priority >= 0` half of the Go guard is
vacuous for `uint8`, as it is for `Nat`); anything larger is an error. The
old and new effective values are compared and `NotifySubscribers` runs only
when both are non-nil and they differ. -/
def WritePropertyWithPriority {V : Type} [DecidableEq V] (o : BACnetObject V)
    (prop : Nat) (value : Option V) (priority : Nat) (now : Nat) :
    Except String (BACnetObject V × List (Notification V)) :=
  let oldValue := ReadProperty o prop
  let updated? : Except String (BACnetObject V) :=
    if priority = 16 then
      .ok { o with
        properties := fun p => if p = prop then some value else o.properties p
        prioritized := fun p => if p = prop then none else o.prioritized p }
    else if priority ≤ 15 then
      let priProps := (o.prioritized prop).getD (fun _ => none)
      .ok { o with
        prioritized := fun p =>
          if p = prop then
            some (fun q => if q = priority then some value else priProps q)
          else o.prioritized p }
    else .error "invalid priority value, must be between 0-16"
  updated?.map (fun o1 =>
    let newValue := ReadProperty o1 prop
    if oldValue ≠ none ∧ newValue ≠ none ∧ oldValue ≠ newValue then
      NotifySubscribers o1 prop newValue now
    else (o1, []))

/-- `WriteProperty`: write at the default priority 16. -/
def WriteProperty {V : Type} [DecidableEq V] (o : BACnetObject V)
    (prop : Nat) (value : Option V) (now : Nat) :
    Except String (BACnetObject V × List (Notification V)) :=
  WritePropertyWithPriority o prop value 16 now

/-- The object state after `o.WriteProperty(prop, value)` when the caller
discards the returned error (as `NewBACnetFile`, `WriteFile`, `DeleteFile`
and `NewDevice` do); priority-16 writes never error. -/
def writeState {V : Type} [DecidableEq V] (o : BACnetObject V) (prop : Nat)
    (value : Option V) (now : Nat) : BACnetObject V :=
  match WriteProperty o prop value now with
  | .ok r => r.fst
  | .error _ => o

/-- `BACnetFile` from `objects.go`: the embedded `BACnetObject` plus the
byte buffer and the file-specific fields. -/
structure BACnetFile where
  base : BACnetObject Val
  fileData : List Nat
  accessMethod : Nat
  openingTag : String
  closingTag : String

/-- `NewBACnetFile`: fresh base object of type File, empty buffer, then the
four initial `WriteProperty` calls (`FileSize = uint32(0)`, the access
method, empty opening/closing tags). -/
def NewBACnetFile (objInstance : Nat) (name : String) (accessMethod : Nat) :
    BACnetFile :=
  let b0 := NewBACnetObject Val ObjectTypeFile objInstance name
  let b1 := writeState b0 PropertyIdentifierFileSize (some (.u32 0)) 0
  let b2 := writeState b1 PropertyIdentifierFileAccessMethod
    (some (.access accessMethod)) 0
  let b3 := writeState b2 PropertyIdentifierFileOpeningTag (some (.str "")) 0
  let b4 := writeState b3 PropertyIdentifierFileClosingTag (some (.str "")) 0
  { base := b4
    fileData := []
    accessMethod := accessMethod
    openingTag := ""
    closingTag := "" }

/-- Go `make([]byte, n)`: `n` zero bytes. -/
def goMake (n : Nat) : List Nat := List.replicate n 0

/-- Go `copy(dst, src)`: overwrite the first `min |dst| |src|` entries of
`dst` with those of `src`; the length of `dst` is preserved. -/
def goCopy (dst src : List Nat) : List Nat :=
  src.take (min dst.length src.length) ++ dst.drop (min dst.length src.length)

/-- Go `copy(dst[i:], src)` for `i ≤ |dst|` (otherwise the slice panics). -/
def goCopyAt (dst : List Nat) (i : Nat) (src : List Nat) : List Nat :=
  dst.take i ++ goCopy (dst.drop i) src

/-- `uint32` truncation. -/
def u32 (n : Nat) : Nat := n % 2 ^ 32

/-- `ReadFile` from `objects.go` (`start`, `count` are `uint32`). The Go
slice `FileData[start:end]` panics when the `uint32` sum `start + count`
wraps below `start`; that case is `none`. -/
def BACnetFile.ReadFile (f : BACnetFile) (start count : Nat) :
    Option (List Nat) :=
  if u32 start ≥ u32 f.fileData.length then some []
  else
    let endIdx := if u32 (start + count) > u32 f.fileData.length
      then u32 f.fileData.length else u32 (start + count)
    if u32 start ≤ endIdx then
      some ((f.fileData.take endIdx).drop (u32 start))
    else none

/-- `WriteFile` from `objects.go`, with Go `uint32` arithmetic made
explicit. Both extension branches allocate `start + uint32(len(data))`
bytes (wrapping mod `2^32`), copy the retained prefix across, and then run
`copy(f.FileData[start:], data)` — which panics (`none`) when the wrapped
allocation is shorter than `start`. Afterwards the `FileSize` property is
rewritten to `uint32(len(f.FileData))`. -/
def BACnetFile.WriteFile (f : BACnetFile) (start : Nat) (data : List Nat)
    (now : Nat) : Option BACnetFile :=
  let su := u32 start
  let oldLen := u32 f.fileData.length
  let newData? : Option (List Nat) :=
    if su > oldLen then
      let nl := u32 (start + u32 data.length)
      let grown := goCopy (goMake nl) f.fileData
      if su ≤ grown.length then some (goCopyAt grown su data) else none
    else if u32 (start + u32 data.length) > oldLen then
      let nl := u32 (start + u32 data.length)
      let grown := goCopy (goMake nl) (f.fileData.take su)
      if su ≤ grown.length then some (goCopyAt grown su data) else none
    else
      if su ≤ f.fileData.length then some (goCopyAt f.fileData su data)
      else none
  newData?.map (fun newData =>
    { f with
      fileData := newData
      base := writeState f.base PropertyIdentifierFileSize
        (some (.u32 (u32 newData.length))) now })

/-- `DeleteFile` from `objects.go`: truncate the buffer and rewrite
`FileSize` to `uint32(0)`. -/
def BACnetFile.DeleteFile (f : BACnetFile) (now : Nat) : BACnetFile :=
  { f with
    fileData := []
    base := writeState f.base PropertyIdentifierFileSize (some (.u32 0)) now }

/-! ## Device and object list -/

/-- An entry of `Device.Objects`: either a plain `BACnetObject` or a
`BACnetFile` (the concrete types the service handlers type-assert on). -/
inductive ServerObject where
  | plain (o : BACnetObject Val)
  | file (f : BACnetFile)

/-- `GetObjectIdentifier` of a stored object. -/
def ServerObject.identifier : ServerObject → Nat × Nat
  | .plain o => (o.identifierType, o.identifierInstance)
  | .file f => (f.base.identifierType, f.base.identifierInstance)

/-- `Device` from `objects.go`: its own base object plus the owned object
list. -/
structure Device where
  base : BACnetObject Val
  objects : List ServerObject

/-- `FindObject`: linear scan of the object list by identifier. -/
def Device.FindObject (d : Device) (objType objInstance : Nat) :
    Option ServerObject :=
  d.objects.find? (fun o => o.identifier = (objType, objInstance))

/-! ## NPDU codec (`internal/protocol/npdu.go`) -/

/-- `ControlInfo`: the decoded NPDU control octet. -/
structure ControlInfo where
  networkMessageFlag : Bool
  destinationSpecified : Bool
  sourceSpecified : Bool
  expectingReply : Bool
  priorityBits : Nat
deriving DecidableEq, Repr

/-- `ParseControl`. -/
def ParseControl (b : Nat) : ControlInfo :=
  { networkMessageFlag := b &&& 0x80 != 0
    destinationSpecified := b &&& 0x20 != 0
    sourceSpecified := b &&& 0x08 != 0
    expectingReply := b &&& 0x04 != 0
    priorityBits := b &&& 0x03 }

/-- `NPDU`: the parsed optional header fields. -/
structure NPDU where
  version : Nat
  control : ControlInfo
  destinationNetwork : Option Nat
  destinationMAC : List Nat
  sourceNetwork : Option Nat
  sourceMAC : List Nat
  hopCount : Option Nat
deriving DecidableEq, Repr

/-- `ParseNPDU`: returns the parsed header and the APDU start offset.
Destination fields are read when bit 5 of the control octet is set; source
fields when bit 3 is set and at least three bytes remain; a trailing hop
count byte is read when a destination was specified and bytes remain. -/
def ParseNPDU (data : List Nat) : Except String (NPDU × Nat) :=
  if data.length < 2 then .error "NPDU too short"
  else
    let version := data.getD 0 0
    let control := ParseControl (data.getD 1 0)
    if version ≠ 1 then .error "unsupported NPDU version"
    else
      let destStep : Except String (Option Nat × List Nat × Nat) :=
        if control.destinationSpecified then
          if 2 + 3 > data.length then
            .error "NPDU too short for destination fields"
          else
            let dnet := data.getD 2 0 * 256 + data.getD 3 0
            let dlen := data.getD 4 0
            if 5 + dlen > data.length then
              .error "NPDU too short for destination MAC"
            else .ok (some dnet, (data.drop 5).take dlen, 5 + dlen)
        else .ok (none, [], 2)
      match destStep with
      | .error e => .error e
      | .ok (dnet, dmac, offsetA) =>
        let srcStep : Except String (Option Nat × List Nat × Nat) :=
          if control.sourceSpecified ∧ data.length - offsetA ≥ 3 then
            let snet := data.getD offsetA 0 * 256 + data.getD (offsetA + 1) 0
            let slen := data.getD (offsetA + 2) 0
            if offsetA + 3 + slen > data.length then
              .error "NPDU too short for source MAC"
            else
              .ok (some snet, (data.drop (offsetA + 3)).take slen,
                offsetA + 3 + slen)
          else .ok (none, [], offsetA)
        match srcStep with
        | .error e => .error e
        | .ok (snet, smac, offsetB) =>
          let hopStep : Option Nat × Nat :=
            if control.destinationSpecified ∧ offsetB < data.length then
              (some (data.getD offsetB 0), offsetB + 1)
            else (none, offsetB)
          if hopStep.2 > data.length then .error "NPDU parsing overflow"
          else
            .ok ({ version := version
                   control := control
                   destinationNetwork := dnet
                   destinationMAC := dmac
                   sourceNetwork := snet
                   sourceMAC := smac
                   hopCount := hopStep.1 }, hopStep.2)

/-- `Encode` from `npdu.go`: the output starts with the version octet only
(the source does not emit the control octet), then the optional
destination, source and hop-count fields. -/
def NPDU.Encode (n : NPDU) : List Nat :=
  [n.version]
  ++ (match n.destinationNetwork with
      | some dn =>
        [(dn >>> 8) % 256, dn % 256]
        ++ (if n.destinationMAC.length > 255 then
              255 :: n.destinationMAC.take 255
            else n.destinationMAC.length % 256 :: n.destinationMAC)
      | none => [])
  ++ (match n.sourceNetwork with
      | some sn =>
        [(sn >>> 8) % 256, sn % 256]
        ++ (if n.sourceMAC.length > 255 then 255 :: n.sourceMAC.take 255
            else n.sourceMAC.length % 256 :: n.sourceMAC)
      | none => [])
  ++ (match n.hopCount with
      | some h => [h]
      | none => [])

/-! ## APDU parser (`internal/protocol/apdu.go`) -/

def BACnetAPDUTypeConfirmedServiceRequest : Nat := 0x0
def BACnetAPDUTypeUnconfirmedServiceRequest : Nat := 0x1
def BACnetAPDUTypeSimpleAck : Nat := 0x2
def BACnetAPDUTypeComplexAck : Nat := 0x3
def BACnetAPDUTypeSegmentAck : Nat := 0x4
def BACnetAPDUTypeError : Nat := 0x5
def BACnetAPDUTypeReject : Nat := 0x6
def BACnetAPDUTypeAbort : Nat := 0x7

def BACnetServiceUnconfirmedWhoIs : Nat := 0x08
def BACnetServiceConfirmedAtomicReadFile : Nat := 0x14

/-- `APDU`: structured view of a parsed APDU. `ParseAPDU` never fills the
segmentation fields; they stay `none` as in the source. -/
structure APDU where
  pduType : Nat
  controlFlags : Nat
  invokeID : Option Nat
  serviceChoice : Option Nat
  sequenceNumber : Option Nat
  proposedWindowSize : Option Nat
  payload : List Nat
  raw : List Nat
deriving DecidableEq, Repr

/-- `ParseAPDU` from `apdu.go`: byte 0 splits into PDU type (high nibble)
and control flags (low nibble); the per-type layouts match the source
switch; unknown PDU types carry the remainder as payload. -/
def ParseAPDU (data : List Nat) : Except String APDU :=
  if data.length < 1 then .error "empty APDU"
  else
    let first := data.getD 0 0
    let pduType := first >>> 4
    let base : APDU :=
      { pduType := pduType
        controlFlags := first &&& 0x0F
        invokeID := none
        serviceChoice := none
        sequenceNumber := none
        proposedWindowSize := none
        payload := []
        raw := data }
    if pduType = BACnetAPDUTypeConfirmedServiceRequest then
      if data.length < 4 then .error "confirmed service request too short"
      else .ok { base with
        invokeID := some (data.getD 2 0)
        serviceChoice := some (data.getD 3 0)
        payload := data.drop 4 }
    else if pduType = BACnetAPDUTypeUnconfirmedServiceRequest then
      if data.length < 2 then .error "unconfirmed service too short"
      else .ok { base with
        serviceChoice := some (data.getD 1 0)
        payload := data.drop 2 }
    else if pduType = BACnetAPDUTypeSimpleAck then
      if data.length < 4 then .error "simple ack too short"
      else .ok { base with
        invokeID := some (data.getD 2 0)
        serviceChoice := some (data.getD 3 0)
        payload := data.drop 4 }
    else if pduType = BACnetAPDUTypeComplexAck then
      if data.length < 5 then .error "complex ack too short"
      else .ok { base with
        invokeID := some (data.getD 2 0)
        serviceChoice := some (data.getD 4 0)
        payload := data.drop 5 }
    else if pduType = BACnetAPDUTypeError then
      if data.length < 5 then .error "error PDU too short"
      else .ok { base with
        invokeID := some (data.getD 2 0)
        serviceChoice := some (data.getD 4 0)
        payload := data.drop 5 }
    else .ok { base with payload := data.drop 1 }

/-! ## Server (BVLC dispatch, service handlers) -/

def ErrorClassObject : Nat := 0x02
def ErrorClassService : Nat := 0x04
def ErrorCodeObjectNotExist : Nat := 0x01
def ErrorCodeValueOutOfRange : Nat := 0x05
def ErrorCodeObjectNotOfRequiredType : Nat := 0x06
def ErrorCodeInvalidDataType : Nat := 0x02

/-- `createErrorResponse`: the Error PDU the server builds. Note the first
byte is the raw constant `BACnetAPDUTypeError | 0x01 = 0x05`, not shifted
into the high nibble. -/
def createErrorResponse (invokeID serviceType errorClass errorCode : Nat) :
    List Nat :=
  [BACnetAPDUTypeError ||| 0x01, 0x00, invokeID, 0x03, serviceType,
   errorClass, errorCode]

/-- `parseObjectIdentifier`: 4 bytes big-endian, 10-bit type / 22-bit
instance; returns (type, instance, consumed offset). -/
def parseObjectIdentifier (data : List Nat) :
    Except String (Nat × Nat × Nat) :=
  if data.length < 4 then .error "data too short for object identifier"
  else
    let typeAndInstance :=
      data.getD 0 0 <<< 24 ||| data.getD 1 0 <<< 16 |||
        data.getD 2 0 <<< 8 ||| data.getD 3 0
    .ok (typeAndInstance >>> 22, typeAndInstance &&& 0x3FFFFF, 4)

/-- `FileReadRequest`. -/
structure FileReadRequest where
  fileType : Nat
  fileInstance : Nat
  startOffset : Nat
  readCount : Nat
deriving DecidableEq, Repr

/-- `parseFileReadRequest`: object identifier, then 4-byte big-endian start
offset and read count. -/
def parseFileReadRequest (data : List Nat) : Except String FileReadRequest :=
  if data.length < 12 then .error "data too short for file read request"
  else
    match parseObjectIdentifier data with
    | .error e => .error e
    | .ok (fileType, fileInstance, offset) =>
      .ok { fileType := fileType
            fileInstance := fileInstance
            startOffset :=
              data.getD offset 0 <<< 24 ||| data.getD (offset + 1) 0 <<< 16 |||
                data.getD (offset + 2) 0 <<< 8 ||| data.getD (offset + 3) 0
            readCount :=
              data.getD (offset + 4) 0 <<< 24 |||
                data.getD (offset + 5) 0 <<< 16 |||
                data.getD (offset + 6) 0 <<< 8 ||| data.getD (offset + 7) 0 }

/-- `handleAtomicReadFile`: parse the request, look the object up, type
check it, read, and build the ComplexAck. The result is `none` only on the
Go runtime panic inside `ReadFile` (its error return is always nil, so the
FileAccessDenied branch of the source is unreachable). -/
def handleAtomicReadFile (dev : Device) (data : List Nat) (invokeID : Nat) :
    Option (List Nat) :=
  match parseFileReadRequest data with
  | .error _ =>
    some (createErrorResponse invokeID BACnetServiceConfirmedAtomicReadFile
      ErrorClassService ErrorCodeValueOutOfRange)
  | .ok request =>
    match dev.FindObject request.fileType request.fileInstance with
    | none =>
      some (createErrorResponse invokeID BACnetServiceConfirmedAtomicReadFile
        ErrorClassObject ErrorCodeObjectNotExist)
    | some (.plain _) =>
      some (createErrorResponse invokeID BACnetServiceConfirmedAtomicReadFile
        ErrorClassObject ErrorCodeInvalidDataType)
    | some (.file bacFile) =>
      match bacFile.ReadFile request.startOffset request.readCount with
      | none => none
      | some fileData =>
        some ([BACnetAPDUTypeComplexAck ||| 0x01, 0x00, invokeID,
               (fileData.length + 9) % 256,
               BACnetServiceConfirmedAtomicReadFile, 0x02, 0x04,
               (request.startOffset >>> 24) % 256,
               (request.startOffset >>> 16) % 256,
               (request.startOffset >>> 8) % 256, request.startOffset % 256,
               0x04, (fileData.length >>> 24) % 256,
               (fileData.length >>> 16) % 256, (fileData.length >>> 8) % 256,
               fileData.length % 256]
              ++ fileData)

/-- `generateSubscriptionID`: high 16 bits of the `uint32`-truncated
timestamp or-ed with the low 16 bits of the (wrapping) `uint32` counter. -/
def generateSubscriptionID (timestamp counter : Nat) : Nat :=
  (u32 timestamp &&& 0xFFFF0000) ||| (u32 counter &&& 0x0000FFFF)

/-- `createIAmResponse`, transcribed byte for byte (`totalLength = 26` as in
the source; `ObjectTypeDevice = 7`). -/
def createIAmResponse (deviceInstance : Nat) : List Nat :=
  [0x81, 0x0a, ((26 - 4) >>> 8) % 256, (26 - 4) % 256,
   0x01, 0x04, 0x00, 0x00, 0x00, 0x00, 0x00, 0x00, 0xFF,
   0x00, (26 - 11) % 256, 0x00,
   0x08,
   0x0c, 0x00, (ObjectTypeDevice <<< 4) % 256, 0x00,
   (deviceInstance >>> 16) % 256, (deviceInstance >>> 8) % 256,
   deviceInstance &&& 0xFF,
   0x21, 0x04, 0x00, 0x04,
   0x24, 0x01, 0x00,
   0x25, 0x02, 0x00, 0x00]

/-- `handleBACnetAPDU`, with the body of the confirmed-service switch
(which routes to the eleven confirmed-service handlers and returns no
response for unsupported choices) abstracted as `dispatchConfirmed
invokeID serviceChoice payload`. The unconfirmed branch answers Who-Is
with `createIAmResponse`; the informational PDU types produce no
response; unknown types are an error. -/
def handleBACnetAPDU
    (dispatchConfirmed : Nat → Nat → List Nat →
      Except String (Option (List Nat)))
    (deviceInstance : Nat) (data : List Nat) :
    Except String (Option (List Nat)) :=
  if data.length < 2 then .error "APDU too short"
  else
    match ParseAPDU data with
    | .error e => .error e
    | .ok apdu =>
      if apdu.pduType = BACnetAPDUTypeConfirmedServiceRequest then
        match apdu.invokeID, apdu.serviceChoice with
        | some invokeID, some serviceChoice =>
          dispatchConfirmed invokeID serviceChoice apdu.payload
        | _, _ =>
          .error "confirmed service request missing invokeID or serviceChoice"
      else if apdu.pduType = BACnetAPDUTypeUnconfirmedServiceRequest then
        match apdu.serviceChoice with
        | some serviceChoice =>
          if serviceChoice = BACnetServiceUnconfirmedWhoIs then
            .ok (some (createIAmResponse deviceInstance))
          else .error "unsupported unconfirmed service type"
        | none => .error "unconfirmed service request missing serviceChoice"
      else if apdu.pduType = BACnetAPDUTypeSimpleAck ∨
          apdu.pduType = BACnetAPDUTypeComplexAck ∨
          apdu.pduType = BACnetAPDUTypeSegmentAck ∨
          apdu.pduType = BACnetAPDUTypeError ∨
          apdu.pduType = BACnetAPDUTypeReject ∨
          apdu.pduType = BACnetAPDUTypeAbort then
        .ok none
      else .error "unhandled APDU"

/-- `handleOriginalUDPMessage`: strip the NPDU, hand the APDU on. -/
def handleOriginalUDPMessage
    (dispatchConfirmed : Nat → Nat → List Nat →
      Except String (Option (List Nat)))
    (deviceInstance : Nat) (data : List Nat) :
    Except String (Option (List Nat)) :=
  match ParseNPDU data with
  | .error e => .error e
  | .ok (_, offset) =>
    handleBACnetAPDU dispatchConfirmed deviceInstance (data.drop offset)

/-- `handleBroadcastMessage`: identical body to the unicast path. -/
def handleBroadcastMessage
    (dispatchConfirmed : Nat → Nat → List Nat →
      Except String (Option (List Nat)))
    (deviceInstance : Nat) (data : List Nat) :
    Except String (Option (List Nat)) :=
  match ParseNPDU data with
  | .error e => .error e
  | .ok (_, offset) =>
    handleBACnetAPDU dispatchConfirmed deviceInstance (data.drop offset)

/-- `processBACnetMessage`: the BVLC layer. Magic byte `0x81` and the
inclusive big-endian length field are checked before dispatch on the
function code; codes other than `0x0a`/`0x0b` are ignored with no
response. -/
def processBACnetMessage
    (dispatchConfirmed : Nat → Nat → List Nat →
      Except String (Option (List Nat)))
    (deviceInstance : Nat) (data : List Nat) :
    Except String (Option (List Nat)) :=
  if data.length < 4 then .error "BACnet message too short"
  else
    let bvlc := data.getD 0 0
    let bvlcFunction := data.getD 1 0
    let bvlcLength := data.getD 2 0 * 256 + data.getD 3 0
    if bvlc ≠ 0x81 then .error "unknown BVLC type"
    else if bvlcLength ≠ data.length then .error "BVLC length mismatch"
    else if bvlcFunction = 0x0a then
      handleOriginalUDPMessage dispatchConfirmed deviceInstance (data.drop 4)
    else if bvlcFunction = 0x0b then
      handleBroadcastMessage dispatchConfirmed deviceInstance (data.drop 4)
    else .ok none

/-! ## Derived views and concrete sample states used by the theorems -/

/-- The effective content of priority slot `i` of property `p`: `some v`
when the slot map exists, the slot is present and holds a non-nil value —
exactly what the `ReadProperty` scan treats as a hit. A `none` slot is what
the specification calls an absent slot. -/
def slotVal {V : Type} (o : BACnetObject V) (p i : Nat) : Option V :=
  ((o.prioritized p).bind (fun m => m i)).bind id

/-- The raw entry of priority slot `i` of property `p` (`none` when the
slot map is missing or the slot is unset; `some v` when the slot stores the
interface value `v`, which may itself be nil). -/
def prioritizedSlot {V : Type} (o : BACnetObject V) (p i : Nat) :
    Option (Option V) :=
  (o.prioritized p).bind (fun m => m i)

/-- Mutations of a file object through the file-service path. -/
inductive FileMutation where
  | write (start : Nat) (bytes : List Nat) (now : Nat)
  | delete (now : Nat)

/-- Apply one file mutation (`none` = the Go code panics). -/
def applyFileMutation (f : BACnetFile) : FileMutation → Option BACnetFile
  | .write start bytes now => f.WriteFile start bytes now
  | .delete now => some (f.DeleteFile now)

/-- Run a sequence of file mutations. -/
def runFileMutations (f : BACnetFile) (ms : List FileMutation) :
    Option BACnetFile :=
  ms.foldl (fun acc m => acc.bind (fun g => applyFileMutation g m)) (some f)

/-- Sample object: slot 8 of property 4 holds 7, the default slot holds
9. -/
def c1obj : BACnetObject Val :=
  { identifierType := 3
    identifierInstance := 1
    name := "AV-1"
    properties := fun p => if p = 4 then some (some (.u32 9)) else none
    prioritized := fun p =>
      if p = 4 then some (fun q => if q = 8 then some (some (.u32 7)) else none)
      else none
    subscriptions := [] }

/-- Sample subscription monitoring all properties. -/
def covSub : COVSubscription :=
  { subscriptionID := 42
    deviceID := 1
    objectType := 1
    objectInstance := 10
    lifetime := 60
    issueConfirmedCOVNotifications := false
    monitoredProperties := []
    timestamp := 0
    clientAddress := "192.168.1.9:47808" }

/-- Sample subscribed object with no value stored for property 4. -/
def covObj : BACnetObject Val :=
  { identifierType := 1
    identifierInstance := 10
    name := "AI-1"
    properties := fun _ => none
    prioritized := fun _ => none
    subscriptions := [covSub] }

/-- The result of writing 5 at priority 8 into `covObj`. -/
def covWrite : BACnetObject Val × List (Notification Val) :=
  match WritePropertyWithPriority covObj 4 (some (.u32 5)) 8 100 with
  | .ok r => r
  | .error _ => (covObj, [])

/-- Sample subscribed object whose property 4 defaults to 1. -/
def covObj2 : BACnetObject Val :=
  { covObj with
    properties := fun p => if p = 4 then some (some (.u32 1)) else none }

/-- The result of writing 9 at priority 3 into `covObj2`. -/
def covWrite2 : BACnetObject Val × List (Notification Val) :=
  match WritePropertyWithPriority covObj2 4 (some (.u32 9)) 3 50 with
  | .ok r => r
  | .error _ => (covObj2, [])

/-- A device holding one analog-input (non-file) object, instance 5. -/
def devC8 : Device :=
  { base := NewBACnetObject Val ObjectTypeDevice 1001 "BACnet-Device"
    objects := [.plain (NewBACnetObject Val ObjectTypeAnalogInput 5 "AI-5")] }

/-- AtomicReadFile request bytes naming object (AnalogInput = 1,
instance 5), start 0, count 0. -/
def readReqAI5 : List Nat :=
  [0x00, 0x40, 0x00, 0x05, 0, 0, 0, 0, 0, 0, 0, 0]

/-- A trivial confirmed-service dispatcher used to instantiate the
dispatcher parameter in witnesses. -/
def dcNone : Nat → Nat → List Nat → Except String (Option (List Nat)) :=
  fun _ _ _ => .ok none

/-- A sample mutation sequence: write, extending write, delete, write. -/
def sampleMutations : List FileMutation :=
  [.write 0 [1, 2, 3] 0, .write 5 [7] 0, .delete 0, .write 2 [9, 9] 0]

/-- The file state after `sampleMutations`. -/
def sampleFileResult : BACnetFile :=
  (runFileMutations (NewBACnetFile 1 "f" 0) sampleMutations).getD
    (NewBACnetFile 1 "f" 0)

/-! ## Properties of the priority scan (claim C1) -/

theorem scanAux_eq_none {V : Type} (m : Nat → Option (Option V)) :
    ∀ fuel i, (∀ j, i ≤ j → j < i + fuel → (m j).bind id = none) →
      scanAux m fuel i = none := by
  intro fuel
  induction fuel with
  | zero => intro i _; rfl
  | succ n ih =>
    intro i h
    have hi : (m i).bind id = none := h i le_rfl (by omega)
    simp only [scanAux, hi]
    exact ih (i + 1) (fun j hj1 hj2 => h j (by omega) (by omega))

theorem scanAux_eq_some {V : Type} (m : Nat → Option (Option V)) :
    ∀ fuel i k v, i ≤ k → k < i + fuel → (m k).bind id = some v →
      (∀ j, i ≤ j → j < k → (m j).bind id = none) →
      scanAux m fuel i = some v := by
  intro fuel
  induction fuel with
  | zero => intro i k v h1 h2 _ _; omega
  | succ n ih =>
    intro i k v h1 h2 hk hmin
    rcases Nat.eq_or_lt_of_le h1 with rfl | hlt
    · simp only [scanAux, hk]
    · have hi : (m i).bind id = none := hmin i le_rfl hlt
      simp only [scanAux, hi]
      exact ih (i + 1) k v (by omega) (by omega) hk
        (fun j hj1 hj2 => hmin j (by omega) hj2)

/-- C1: `read_property` returns the value at the lowest-numbered non-absent
priority slot among 0–15; if all of 0–15 are absent it returns the plain
(slot-16) mapping entry, which itself reads as absent when missing or
nil. -/
theorem readProperty_priority_scan {V : Type} (o : BACnetObject V)
    (p : Nat) :
    ((∀ i, i < 16 → slotVal o p i = none) →
      ReadProperty o p = (o.properties p).bind id)
    ∧ (∀ i v, i < 16 → slotVal o p i = some v →
        (∀ j, j < i → slotVal o p j = none) →
        ReadProperty o p = some v) := by
  constructor
  · intro h
    unfold ReadProperty
    cases hp : o.prioritized p with
    | none => rfl
    | some m =>
      have hs : scanAux m 16 0 = none := by
        apply scanAux_eq_none
        intro j _ hj
        have := h j (by omega)
        simpa [slotVal, hp] using this
      simp [hs]
  · intro i v hi hv hmin
    unfold ReadProperty
    cases hp : o.prioritized p with
    | none => simp [slotVal, hp] at hv
    | some m =>
      have hs : scanAux m 16 0 = some v := by
        apply scanAux_eq_some m 16 0 i v (by omega) (by omega)
        · simpa [slotVal, hp] using hv
        · intro j _ hj
          have := hmin j hj
          simpa [slotVal, hp] using this
      simp [hs]

/-- Witness for C1 at a concrete object: slot 8 is the lowest non-absent
slot and is returned in preference to the default value 9. -/
theorem readProperty_priority_scan_witness :
    ReadProperty c1obj 4 = some (.u32 7) :=
  (readProperty_priority_scan c1obj 4).2 8 (.u32 7) (by decide) (by decide)
    (by decide)

/-! ## Frame effect of prioritized writes (claim C2) -/

theorem writeState_fields {V : Type} [DecidableEq V] (o : BACnetObject V)
    (p : Nat) (v : Option V) (now : Nat) :
    (writeState o p v now).properties =
      (fun q => if q = p then some v else o.properties q)
    ∧ (writeState o p v now).prioritized =
      (fun q => if q = p then none else o.prioritized q) := by
  unfold writeState WriteProperty WritePropertyWithPriority
  simp only [reduceIte, Except.map]
  split
  · exact ⟨rfl, rfl⟩
  · exact ⟨rfl, rfl⟩

/-- C2: writing at priority 16 stores the value in the plain mapping and
leaves every priority slot 0–15 of that property empty; writing at a
priority 0–15 updates exactly that slot, leaving the other slots and the
plain (slot-16) entry of the property unchanged. -/
theorem writeProperty_frame {V : Type} [DecidableEq V] (o : BACnetObject V)
    (p : Nat) (v : Option V) (now : Nat) :
    (∀ o' ns, WritePropertyWithPriority o p v 16 now = .ok (o', ns) →
      o'.properties p = some v ∧ ∀ i, i ≤ 15 → prioritizedSlot o' p i = none)
    ∧ (∀ q, q ≤ 15 → ∀ o' ns,
        WritePropertyWithPriority o p v q now = .ok (o', ns) →
        prioritizedSlot o' p q = some v
        ∧ (∀ j, j ≠ q → prioritizedSlot o' p j = prioritizedSlot o p j)
        ∧ o'.properties p = o.properties p) := by
  constructor
  · intro o' ns h
    unfold WritePropertyWithPriority at h
    simp only [reduceIte, Except.map, Except.ok.injEq] at h
    split at h <;>
    · rw [Prod.ext_iff] at h
      obtain ⟨h1, -⟩ := h
      subst h1
      exact ⟨by simp [NotifySubscribers], fun i _ => by
        simp [NotifySubscribers, prioritizedSlot]⟩
  · intro q hq o' ns h
    unfold WritePropertyWithPriority at h
    have h16 : ¬ (q = 16) := by omega
    simp only [if_neg h16, if_pos hq, Except.map, Except.ok.injEq] at h
    split at h <;>
    · rw [Prod.ext_iff] at h
      obtain ⟨h1, -⟩ := h
      subst h1
      refine ⟨by simp [NotifySubscribers, prioritizedSlot], ?_, by
        simp [NotifySubscribers]⟩
      intro j hj
      simp only [NotifySubscribers, prioritizedSlot, if_pos rfl]
      cases hjp : o.prioritized p with
      | none => simp [hjp, Option.getD, if_neg hj]
      | some m => simp [hjp, Option.getD, if_neg hj]

/-- Witness for C2 at a concrete object: a slot-16 write clears slot 8 and
installs the default; a slot-5 write touches only slot 5. -/
theorem writeProperty_frame_witness :
    (∀ o' ns,
      WritePropertyWithPriority c1obj 4 (some (.u32 3)) 16 0 = .ok (o', ns) →
      o'.properties 4 = some (some (.u32 3))
      ∧ ∀ i, i ≤ 15 → prioritizedSlot o' 4 i = none)
    ∧ (∀ o' ns,
        WritePropertyWithPriority c1obj 4 (some (.u32 3)) 5 0 = .ok (o', ns) →
        prioritizedSlot o' 4 5 = some (some (.u32 3))
        ∧ (∀ j, j ≠ 5 → prioritizedSlot o' 4 j = prioritizedSlot c1obj 4 j)
        ∧ o'.properties 4 = c1obj.properties 4) :=
  ⟨(writeProperty_frame c1obj 4 (some (.u32 3)) 0).1,
   (writeProperty_frame c1obj 4 (some (.u32 3)) 0).2 5 (by decide)⟩

/-! ## COV dispatch on the write path (claims C3 and C10) -/

theorem readProperty_notify_fst {V : Type} [DecidableEq V]
    (o : BACnetObject V) (p : Nat) (newv : Option V) (now q : Nat) :
    ReadProperty (NotifySubscribers o p newv now).fst q = ReadProperty o q := by
  rfl

theorem mem_filterMap_snd {α β γ : Type _} (g : α → β × Option γ)
    (l : List α) (a : α) (n : γ) (ha : a ∈ l) (h : (g a).snd = some n) :
    n ∈ (l.map g).filterMap Prod.snd :=
  List.mem_filterMap.mpr ⟨g a, List.mem_map_of_mem g ha, h⟩

theorem mem_map_fst {α β γ : Type _} (g : α → β × Option γ)
    (l : List α) (a : α) (b : β) (ha : a ∈ l) (h : (g a).fst = b) :
    b ∈ (l.map g).map Prod.fst :=
  List.mem_map.mpr ⟨g a, List.mem_map_of_mem g ha, h⟩

theorem notify_mem {V : Type} [DecidableEq V] (o : BACnetObject V)
    (p now : Nat) (nv : Option V) (sub : COVSubscription)
    (hmem : sub ∈ o.subscriptions)
    (hmonb : (sub.monitoredProperties.isEmpty ||
      sub.monitoredProperties.contains p) = true)
    (haddr : sub.clientAddress ≠ "") :
    ({ clientAddress := sub.clientAddress
       subscriptionID := sub.subscriptionID
       objectID := o.identifierInstance
       propertyID := p
       newValue := nv } : Notification V) ∈ (NotifySubscribers o p nv now).snd
    ∧ { sub with timestamp := now } ∈
      (NotifySubscribers o p nv now).fst.subscriptions := by
  unfold NotifySubscribers
  constructor
  · exact mem_filterMap_snd _ _ sub _ hmem
      (by dsimp only; rw [if_pos (by rw [hmonb]; simp [haddr])])
  · exact mem_map_fst _ _ sub _ hmem
      (by dsimp only; rw [if_pos (by rw [hmonb]; simp [haddr])])

theorem notify_branch_spec {V : Type} [DecidableEq V]
    (o o1 : BACnetObject V) (p now : Nat) (o' : BACnetObject V)
    (ns : List (Notification V))
    (hres : (if ReadProperty o p ≠ none ∧ ReadProperty o1 p ≠ none ∧
          ReadProperty o p ≠ ReadProperty o1 p then
        NotifySubscribers o1 p (ReadProperty o1 p) now
      else (o1, [])) = (o', ns))
    (hsubs : o1.subscriptions = o.subscriptions)
    (hinst : o1.identifierInstance = o.identifierInstance) :
    ((ReadProperty o p ≠ none → ReadProperty o' p ≠ none →
      ReadProperty o p ≠ ReadProperty o' p →
      ∀ sub ∈ o.subscriptions,
        (sub.monitoredProperties = [] ∨ p ∈ sub.monitoredProperties) →
        sub.clientAddress ≠ "" →
        ({ clientAddress := sub.clientAddress
           subscriptionID := sub.subscriptionID
           objectID := o.identifierInstance
           propertyID := p
           newValue := ReadProperty o' p } : Notification V) ∈ ns
        ∧ { sub with timestamp := now } ∈ o'.subscriptions))
    ∧ (ReadProperty o p = ReadProperty o' p → ns = []) := by
  by_cases hc : ReadProperty o p ≠ none ∧ ReadProperty o1 p ≠ none ∧
      ReadProperty o p ≠ ReadProperty o1 p
  · rw [if_pos hc] at hres
    have ho' : o' = (NotifySubscribers o1 p (ReadProperty o1 p) now).fst := by
      rw [hres]
    have hns : ns = (NotifySubscribers o1 p (ReadProperty o1 p) now).snd := by
      rw [hres]
    have hro : ReadProperty o' p = ReadProperty o1 p := by
      rw [ho', readProperty_notify_fst]
    constructor
    · intro _ _ _ sub hmem hmon haddr
      have hmonb : (sub.monitoredProperties.isEmpty ||
          sub.monitoredProperties.contains p) = true := by
        rcases hmon with hmon | hmon
        · simp [hmon]
        · simp [hmon]
      have key := notify_mem o1 p now (ReadProperty o1 p) sub
        (hsubs ▸ hmem) hmonb haddr
      rw [hinst] at key
      rw [hro, ho', hns]
      exact key
    · intro heq
      exact absurd (heq.trans hro) hc.2.2
  · rw [if_neg hc] at hres
    rw [Prod.mk.injEq] at hres
    obtain ⟨ho', hns⟩ := hres
    constructor
    · intro h1 h2 h3 sub _ _ _
      exact absurd ⟨h1, ho' ▸ h2, ho' ▸ h3⟩ hc
    · intro _
      exact hns.symm

/-- C3 (counterexample to the claim as stated): property 4 of `covObj` has
no effective value; writing 5 at priority 8 changes the effective value
(absent to 5) and a subscription with an empty monitored list and a
non-empty client address exists, yet no notification is dispatched and the
subscription timestamp stays 0. -/
theorem cov_dispatch_counterexample :
    ReadProperty covObj 4 = none
    ∧ (WritePropertyWithPriority covObj 4 (some (.u32 5)) 8 100).map
        (fun r => (ReadProperty r.fst 4, r.snd, r.fst.subscriptions)) =
      .ok (some (.u32 5), [], [covSub])
    ∧ covSub.monitoredProperties = []
    ∧ covSub.clientAddress ≠ ""
    ∧ covSub.timestamp ≠ 100 :=
  ⟨by decide, rfl, by decide, by decide, by decide⟩

/-- C3 (amended): when a write succeeds and the effective value of the
written property was present before, is present after, and changed, then
every subscription on the object whose monitored list is empty or contains
the property and whose client address is non-empty gets a COV notification
carrying its subscription id, the object instance and the new effective
value, addressed to its client address, and reappears with its timestamp
set to the write time; when the effective value is unchanged nothing is
dispatched. -/
theorem cov_dispatch_amended {V : Type} [DecidableEq V] (o : BACnetObject V)
    (p : Nat) (v : Option V) (q now : Nat) (o' : BACnetObject V)
    (ns : List (Notification V))
    (h : WritePropertyWithPriority o p v q now = .ok (o', ns)) :
    ((ReadProperty o p ≠ none → ReadProperty o' p ≠ none →
      ReadProperty o p ≠ ReadProperty o' p →
      ∀ sub ∈ o.subscriptions,
        (sub.monitoredProperties = [] ∨ p ∈ sub.monitoredProperties) →
        sub.clientAddress ≠ "" →
        ({ clientAddress := sub.clientAddress
           subscriptionID := sub.subscriptionID
           objectID := o.identifierInstance
           propertyID := p
           newValue := ReadProperty o' p } : Notification V) ∈ ns
        ∧ { sub with timestamp := now } ∈ o'.subscriptions))
    ∧ (ReadProperty o p = ReadProperty o' p → ns = []) := by
  unfold WritePropertyWithPriority at h
  split at h
  · simp only [Except.map, Except.ok.injEq] at h
    exact notify_branch_spec o _ p now o' ns h rfl rfl
  · split at h
    · simp only [Except.map, Except.ok.injEq] at h
      exact notify_branch_spec o _ p now o' ns h rfl rfl
    · simp only [Except.map] at h
      exact absurd h (by simp)

/-- Witness for C3 (amended) at a concrete state: the write of 9 at
priority 3 over the default 1 dispatches a notification to the registered
subscriber and refreshes its timestamp to the write time 50. -/
theorem cov_dispatch_amended_witness :
    ({ clientAddress := "192.168.1.9:47808"
       subscriptionID := 42
       objectID := 10
       propertyID := 4
       newValue := some (.u32 9) } : Notification Val) ∈ covWrite2.snd
    ∧ { covSub with timestamp := 50 } ∈ covWrite2.fst.subscriptions := by
  have h := cov_dispatch_amended covObj2 4 (some (.u32 9)) 3 50
    covWrite2.fst covWrite2.snd rfl
  have hmem := h.1 (by decide) (by decide) (by decide) covSub (by decide)
    (Or.inl rfl) (by decide)
  have hval : ReadProperty covWrite2.fst 4 = some (.u32 9) := by decide
  rw [hval] at hmem
  exact hmem

/-- C10: a write to a property with no effective value dispatches no COV
notification, even when it establishes a new effective value and matching
subscriptions exist. -/
theorem write_fresh_value_no_notification {V : Type} [DecidableEq V]
    (o : BACnetObject V) (p : Nat) (v : Option V) (q now : Nat)
    (o' : BACnetObject V) (ns : List (Notification V))
    (hold : ReadProperty o p = none)
    (h : WritePropertyWithPriority o p v q now = .ok (o', ns)) : ns = [] := by
  unfold WritePropertyWithPriority at h
  have hcond : ∀ o1 : BACnetObject V,
      (if ReadProperty o p ≠ none ∧ ReadProperty o1 p ≠ none ∧
          ReadProperty o p ≠ ReadProperty o1 p then
        NotifySubscribers o1 p (ReadProperty o1 p) now
      else (o1, [])) = (o1, []) := by
    intro o1
    rw [if_neg]
    intro hcon
    exact hcon.1 hold
  split at h
  · simp only [Except.map, Except.ok.injEq] at h
    rw [hcond] at h
    rw [Prod.mk.injEq] at h
    exact h.2.symm
  · split at h
    · simp only [Except.map, Except.ok.injEq] at h
      rw [hcond] at h
      rw [Prod.mk.injEq] at h
      exact h.2.symm
    · simp only [Except.map] at h
      exact absurd h (by simp)

/-- Witness for C10 at a concrete state: the write into `covObj` (no prior
effective value, matching subscription present, new effective value 5)
dispatches nothing. -/
theorem write_fresh_value_no_notification_witness :
    covWrite.snd = [] ∧ ReadProperty covWrite.fst 4 = some (.u32 5)
    ∧ covObj.subscriptions ≠ [] :=
  ⟨write_fresh_value_no_notification covObj 4 (some (.u32 5)) 8 100
      covWrite.fst covWrite.snd (by decide) rfl,
   by decide, by decide⟩

/-! ## Who-Is / I-Am wire layout (claim C4) and NPDU round trip (claim C5) -/

/-- C4: evaluation of the Who-Is path at the failing input. The broadcast
Who-Is datagram `81 0B 00 08 01 00 10 08` on a device with instance 1001 is
answered with `createIAmResponse 1001`, a 35-byte datagram whose BVLC length
field is 22 — not the inclusive total length 35 the specification requires
(and its own `processBACnetMessage` enforces on inbound frames) — whose NPDU
is the 9-byte block `01 04 00 00 00 00 00 00 FF` (not the 8-byte block
claimed), whose byte after the APDU type octet is the length byte 15 rather
than the service choice `0x08` (the service choice sits two bytes later),
and whose object-identifier block starts `0c 00 70` — `ObjectTypeDevice = 7`
shifted into a high nibble rather than the 10-bit-type/22-bit-instance
packing with Device = 8. -/
theorem iam_response_layout_bug
    (dispatchConfirmed : Nat → Nat → List Nat →
      Except String (Option (List Nat))) :
    processBACnetMessage dispatchConfirmed 1001
        [0x81, 0x0B, 0x00, 0x08, 0x01, 0x00, 0x10, 0x08] =
      .ok (some (createIAmResponse 1001))
    ∧ (createIAmResponse 1001).length = 35
    ∧ (createIAmResponse 1001).take 4 = [0x81, 0x0a, 0x00, 22]
    ∧ (0 * 256 + 22 : Nat) ≠ (createIAmResponse 1001).length
    ∧ ((createIAmResponse 1001).drop 4).take 9 =
        [0x01, 0x04, 0x00, 0x00, 0x00, 0x00, 0x00, 0x00, 0xFF]
    ∧ (createIAmResponse 1001).getD 13 0 = 0x00
    ∧ (createIAmResponse 1001).getD 14 0 ≠ 0x08
    ∧ (createIAmResponse 1001).getD 16 0 = 0x08
    ∧ ((createIAmResponse 1001).drop 17).take 3 = [0x0c, 0x00, 0x70] := by
  exact ⟨rfl, by decide, by decide, by decide, by decide, by decide,
    by decide, by decide, by decide⟩

/-- C5: evaluation of the NPDU codec at the failing input. `ParseNPDU`
consumes the two bytes `01 04` (version and control), but re-encoding the
parsed structure yields only `[01]`: `Encode` in `npdu.go` never emits the
control octet, so `Encode ∘ Parse` cannot reproduce the consumed bytes of
any valid NPDU. -/
theorem npdu_encode_omits_control :
    (ParseNPDU [0x01, 0x04]).map (fun r => (NPDU.Encode r.fst, r.snd)) =
      .ok ([0x01], 2)
    ∧ ([0x01] : List Nat) ≠ List.take 2 [0x01, 0x04] :=
  ⟨rfl, by decide⟩

/-! ## BVLC framing checks (claim C6) -/

/-- C6: a datagram whose first byte is not `0x81` fails with a framing
error and produces no response (datagrams shorter than four bytes also
fail); a datagram whose BVLC length field differs from the datagram length
fails with a framing error and produces no response; a well-framed datagram
with a BVLC function other than `0x0a`/`0x0b` is ignored, producing no
response — all regardless of the confirmed-service dispatcher. -/
theorem bvlc_framing
    (dispatchConfirmed : Nat → Nat → List Nat →
      Except String (Option (List Nat)))
    (deviceInstance : Nat) (data : List Nat) :
    (data.getD 0 0 ≠ 0x81 →
      ∃ e, processBACnetMessage dispatchConfirmed deviceInstance data =
        .error e)
    ∧ (4 ≤ data.length → data.getD 0 0 = 0x81 →
        data.getD 2 0 * 256 + data.getD 3 0 ≠ data.length →
        ∃ e, processBACnetMessage dispatchConfirmed deviceInstance data =
          .error e)
    ∧ (4 ≤ data.length → data.getD 0 0 = 0x81 →
        data.getD 2 0 * 256 + data.getD 3 0 = data.length →
        data.getD 1 0 ≠ 0x0a → data.getD 1 0 ≠ 0x0b →
        processBACnetMessage dispatchConfirmed deviceInstance data =
          .ok none) := by
  refine ⟨?_, ?_, ?_⟩
  · intro hmagic
    unfold processBACnetMessage
    split
    · exact ⟨_, rfl⟩
    · rw [if_pos hmagic]
      exact ⟨_, rfl⟩
  · intro hlen hmagic hfield
    unfold processBACnetMessage
    rw [if_neg (by omega), if_neg (by simp; simpa [List.getD] using hmagic),
      if_pos hfield]
    exact ⟨_, rfl⟩
  · intro hlen hmagic hfield hfa hfb
    unfold processBACnetMessage
    rw [if_neg (by omega), if_neg (by simp; simpa [List.getD] using hmagic),
      if_neg (by simp; simpa [List.getD] using hfield), if_neg hfa, if_neg hfb]

/-- Witness for C6 at concrete datagrams: a wrong magic byte, a wrong
length field, and an unsupported function code (0x05). -/
theorem bvlc_framing_witness :
    (∃ e, processBACnetMessage dcNone 1 [0x50, 0x0a, 0x00, 0x04] = .error e)
    ∧ (∃ e, processBACnetMessage dcNone 1 [0x81, 0x0a, 0x00, 0x05] = .error e)
    ∧ processBACnetMessage dcNone 1 [0x81, 0x05, 0x00, 0x04] = .ok none :=
  ⟨(bvlc_framing dcNone 1 [0x50, 0x0a, 0x00, 0x04]).1 (by decide),
   (bvlc_framing dcNone 1 [0x81, 0x0a, 0x00, 0x05]).2.1 (by decide)
     (by decide) (by decide),
   (bvlc_framing dcNone 1 [0x81, 0x05, 0x00, 0x04]).2.2 (by decide)
     (by decide) (by decide) (by decide) (by decide)⟩

/-! ## File-size invariant (claim C7) -/

theorem goCopy_length (dst src : List Nat) :
    (goCopy dst src).length = dst.length := by
  unfold goCopy
  rw [List.length_append, List.length_take, List.length_drop]
  omega

theorem goCopyAt_length (dst src : List Nat) (i : Nat) (h : i ≤ dst.length) :
    (goCopyAt dst i src).length = dst.length := by
  unfold goCopyAt
  rw [List.length_append, List.length_take, goCopy_length, List.length_drop]
  omega

theorem u32_lt (n : Nat) : u32 n < 2 ^ 32 :=
  Nat.mod_lt _ (by norm_num)

theorem runFold_none (ms : List FileMutation) :
    ms.foldl (fun acc m => acc.bind (fun g => applyFileMutation g m)) none =
      none := by
  induction ms with
  | nil => rfl
  | cons m ms ih => exact ih

theorem runFileMutations_cons (f : BACnetFile) (m : FileMutation)
    (ms : List FileMutation) :
    runFileMutations f (m :: ms) =
      (applyFileMutation f m).bind (fun g => runFileMutations g ms) := by
  unfold runFileMutations
  rw [List.foldl_cons]
  cases h : applyFileMutation f m with
  | none => simp [h, runFold_none]
  | some g => simp [h]

theorem fileMutation_step (f f' : BACnetFile) (m : FileMutation)
    (h1 : f.fileData.length < 2 ^ 32)
    (hm : applyFileMutation f m = some f') :
    f'.fileData.length < 2 ^ 32
    ∧ f'.base.properties PropertyIdentifierFileSize =
        some (some (.u32 f'.fileData.length))
    ∧ f'.base.prioritized PropertyIdentifierFileSize = none := by
  have hfields := fun (b : BACnetObject Val) v now =>
    writeState_fields b PropertyIdentifierFileSize v now
  cases m with
  | delete now =>
    simp only [applyFileMutation, BACnetFile.DeleteFile,
      Option.some.injEq] at hm
    subst hm
    refine ⟨by simp, ?_, ?_⟩
    · rw [(hfields f.base (some (.u32 0)) now).1]
      simp
    · rw [(hfields f.base (some (.u32 0)) now).2]
      simp
  | write start bytes now =>
    simp only [applyFileMutation, BACnetFile.WriteFile] at hm
    split at hm
    · split at hm
      · rename_i hg
        simp only [Option.map, Option.some.injEq] at hm
        subst hm
        have hlen : (goCopyAt (goCopy (goMake (u32 (start + u32 bytes.length)))
            f.fileData) (u32 start) bytes).length < 2 ^ 32 := by
          rw [goCopyAt_length _ _ _ hg, goCopy_length]
          simp only [goMake, List.length_replicate]
          exact u32_lt _
        refine ⟨hlen, ?_, ?_⟩
        · rw [(hfields _ _ _).1]
          dsimp only
          rw [if_pos rfl]
          exact congrArg (fun n => some (some (Val.u32 n)))
            (Nat.mod_eq_of_lt hlen)
        · rw [(hfields _ _ _).2]
          dsimp only
          rw [if_pos rfl]
      · simp at hm
    · split at hm
      · split at hm
        · rename_i hg
          simp only [Option.map, Option.some.injEq] at hm
          subst hm
          have hlen : (goCopyAt (goCopy (goMake (u32 (start + u32 bytes.length)))
              (f.fileData.take (u32 start))) (u32 start) bytes).length <
              2 ^ 32 := by
            rw [goCopyAt_length _ _ _ hg, goCopy_length]
            simp only [goMake, List.length_replicate]
            exact u32_lt _
          refine ⟨hlen, ?_, ?_⟩
          · rw [(hfields _ _ _).1]
            dsimp only
            rw [if_pos rfl]
            exact congrArg (fun n => some (some (Val.u32 n)))
              (Nat.mod_eq_of_lt hlen)
          · rw [(hfields _ _ _).2]
            dsimp only
            rw [if_pos rfl]
        · simp at hm
      · split at hm
        · rename_i hg
          simp only [Option.map, Option.some.injEq] at hm
          subst hm
          have hlen : (goCopyAt f.fileData (u32 start) bytes).length <
              2 ^ 32 := by
            rw [goCopyAt_length _ _ _ hg]
            exact h1
          refine ⟨hlen, ?_, ?_⟩
          · rw [(hfields _ _ _).1]
            dsimp only
            rw [if_pos rfl]
            exact congrArg (fun n => some (some (Val.u32 n)))
              (Nat.mod_eq_of_lt hlen)
          · rw [(hfields _ _ _).2]
            dsimp only
            rw [if_pos rfl]
        · simp at hm

theorem newBACnetFile_inv (objInstance : Nat) (name : String) (am : Nat) :
    (NewBACnetFile objInstance name am).fileData.length < 2 ^ 32
    ∧ (NewBACnetFile objInstance name am).base.properties
        PropertyIdentifierFileSize =
      some (some (.u32 (NewBACnetFile objInstance name am).fileData.length))
    ∧ (NewBACnetFile objInstance name am).base.prioritized
        PropertyIdentifierFileSize = none :=
  ⟨by simp [NewBACnetFile], rfl, rfl⟩

theorem fileInv_run (ms : List FileMutation) :
    ∀ f f' : BACnetFile,
    (f.fileData.length < 2 ^ 32
      ∧ f.base.properties PropertyIdentifierFileSize =
          some (some (.u32 f.fileData.length))
      ∧ f.base.prioritized PropertyIdentifierFileSize = none) →
    runFileMutations f ms = some f' →
    (f'.fileData.length < 2 ^ 32
      ∧ f'.base.properties PropertyIdentifierFileSize =
          some (some (.u32 f'.fileData.length))
      ∧ f'.base.prioritized PropertyIdentifierFileSize = none) := by
  induction ms with
  | nil =>
    intro f f' hinv hrun
    unfold runFileMutations at hrun
    simp only [List.foldl_nil, Option.some.injEq] at hrun
    exact hrun ▸ hinv
  | cons m ms ih =>
    intro f f' hinv hrun
    rw [runFileMutations_cons] at hrun
    cases ha : applyFileMutation f m with
    | none => rw [ha] at hrun; simp [Option.bind] at hrun
    | some g =>
      rw [ha] at hrun
      simp only [Option.bind] at hrun
      have hg := fileMutation_step f g m hinv.1 ha
      exact ih g f' ⟨hg.1, hg.2.1, hg.2.2⟩ hrun

/-- C7: after any sequence of completed file mutations (stream writes at
arbitrary start offsets, including extending writes, and deletions) the
FileSize property of the file object equals the length of its byte
buffer. -/
theorem fileSize_invariant (objInstance : Nat) (name : String) (am : Nat)
    (ms : List FileMutation) (f : BACnetFile)
    (h : runFileMutations (NewBACnetFile objInstance name am) ms = some f) :
    ReadProperty f.base PropertyIdentifierFileSize =
      some (.u32 f.fileData.length) := by
  obtain ⟨-, h2, h3⟩ := fileInv_run ms (NewBACnetFile objInstance name am) f
    (newBACnetFile_inv objInstance name am) h
  unfold ReadProperty
  rw [h3, h2]
  rfl

/-- Witness for C7: running the sample mutation sequence (write, extending
write, delete, write past the new end) leaves a 4-byte buffer and a
FileSize property reading 4. -/
theorem fileSize_invariant_witness :
    ReadProperty sampleFileResult.base PropertyIdentifierFileSize =
      some (.u32 sampleFileResult.fileData.length)
    ∧ sampleFileResult.fileData.length = 4 :=
  ⟨fileSize_invariant 1 "f" 0 sampleMutations sampleFileResult rfl,
   by decide⟩

/-! ## AtomicReadFile on a non-file object (claim C8) -/

/-- C8 (counterexample to the claim as stated): an AtomicReadFile request
naming the existing AnalogInput object (1, 5) yields the error response
`05 00 42 03 14 02 02` — error class Object (0x02) but error code 0x02
(the source's `ErrorCodeInvalidDataType`), not 0x06
(`ErrorCodeObjectNotOfRequiredType`). -/
theorem atomicReadFile_wrong_type_counterexample :
    handleAtomicReadFile devC8 readReqAI5 0x42 =
      some [0x05, 0x00, 0x42, 0x03, 0x14, 0x02, 0x02]
    ∧ (0x02 : Nat) ≠ ErrorCodeObjectNotOfRequiredType := by
  exact ⟨rfl, by decide⟩

/-- C8 (amended): for every AtomicReadFile request whose parsed file
identifier names an object present in the device's object list that is not
a file object, the server returns its error response carrying the request's
invoke id with error class Object (0x02) and error code 0x02 — the source's
`ErrorCodeInvalidDataType` constant, not `ObjectNotOfRequiredType`
(0x06). -/
theorem atomicReadFile_wrong_type_error (dev : Device) (data : List Nat)
    (invokeID : Nat) (request : FileReadRequest) (o : BACnetObject Val)
    (hreq : parseFileReadRequest data = .ok request)
    (hfind : dev.FindObject request.fileType request.fileInstance =
      some (.plain o)) :
    handleAtomicReadFile dev data invokeID =
      some (createErrorResponse invokeID BACnetServiceConfirmedAtomicReadFile
        ErrorClassObject ErrorCodeInvalidDataType)
    ∧ createErrorResponse invokeID BACnetServiceConfirmedAtomicReadFile
        ErrorClassObject ErrorCodeInvalidDataType =
      [0x05, 0x00, invokeID, 0x03, 0x14, 0x02, 0x02] := by
  constructor
  · unfold handleAtomicReadFile
    rw [hreq]
    simp only [hfind]
  · rfl

/-- Witness for C8 (amended) at a concrete request against the sample
device. -/
theorem atomicReadFile_wrong_type_witness :
    handleAtomicReadFile devC8 readReqAI5 0x07 =
      some [0x05, 0x00, 0x07, 0x03, 0x14, 0x02, 0x02] := by
  have h := atomicReadFile_wrong_type_error devC8 readReqAI5 0x07
    { fileType := 1, fileInstance := 5, startOffset := 0, readCount := 0 }
    (NewBACnetObject Val ObjectTypeAnalogInput 5 "AI-5") rfl rfl
  rw [h.1, h.2]

/-! ## Subscription id generation (claim C9) -/

/-- C9 (counterexample to the claim as stated): two distinct calls — same
timestamp, counter values 1 and 65537 (the counter having wrapped modulo
2^16) — return the same 32-bit subscription id. -/
theorem subscriptionID_collision_counterexample :
    generateSubscriptionID 0 1 = generateSubscriptionID 0 65537
    ∧ (1 : Nat) ≠ 65537 := by
  exact ⟨by decide, by decide⟩

theorem generateSubscriptionID_mod (t c : Nat) :
    generateSubscriptionID t c % 65536 = c % 65536 := by
  have h16 : (65536 : Nat) = 2 ^ 16 := by norm_num
  apply Nat.eq_of_testBit_eq
  intro i
  rw [h16, Nat.testBit_mod_two_pow, Nat.testBit_mod_two_pow]
  by_cases hi : i < 16
  · simp only [hi, decide_True, Bool.true_and]
    unfold generateSubscriptionID u32
    rw [Nat.testBit_lor, Nat.testBit_land, Nat.testBit_land]
    have h1 : Nat.testBit 0xFFFF0000 i = false := by
      interval_cases i <;> decide
    have h2 : Nat.testBit 0xFFFF i = true := by
      interval_cases i <;> decide
    have h3 : Nat.testBit (c % 2 ^ 32) i = Nat.testBit c i := by
      rw [Nat.testBit_mod_two_pow]
      simp [show i < 32 by omega]
    rw [h1, h2, h3]
    simp
  · simp [hi]

/-- C9 (amended): two calls of the subscription-id generator with the same
timestamp and counter values that are incongruent modulo 2^16 return
distinct ids; uniqueness fails in general because the id keeps only the low
16 counter bits and the high 16 timestamp bits, so a counter wrap-around
under an unchanged timestamp high half collides. -/
theorem subscriptionID_distinct_amended (t c1 c2 : Nat)
    (h : c1 % 65536 ≠ c2 % 65536) :
    generateSubscriptionID t c1 ≠ generateSubscriptionID t c2 := by
  intro heq
  apply h
  rw [← generateSubscriptionID_mod t c1, ← generateSubscriptionID_mod t c2,
    heq]

/-- Witness for C9 (amended): counters 1 and 2 under timestamp 0 give
distinct ids. -/
theorem subscriptionID_distinct_witness :
    generateSubscriptionID 0 1 ≠ generateSubscriptionID 0 2 :=
  subscriptionID_distinct_amended 0 1 2 (by decide)

end Bacnet
